import Mathlib

/-!
Verification development for the AioP13 Plan13 satellite tracking library
(src/AioP13.cpp, src/AioP13.h).

The C++ code computes with IEEE double precision.  This development embeds it
in exact arithmetic: the calendar and day-number arithmetic over the integers
and rationals (where every double operation performed by the code is exact or
provably rounds to the same truncated result on the valid input range, see the
comments at each definition), and the orbital mechanics over the reals.
C casts (long)/(int) truncate toward zero; they are modelled by Int.tdiv on
scaled integers, and by the rtrunc/qtrunc helpers on reals and rationals.
-/

open Real

/-- Truncation toward zero of a rational, the semantics of a C cast from a
floating value to an integer type. -/
def qtrunc (x : ℚ) : ℤ := if 0 ≤ x then ⌊x⌋ else ⌈x⌉

/-- Truncation toward zero of a real, the semantics of a C cast from a
floating value to an integer type. -/
noncomputable def rtrunc (x : ℝ) : ℤ := if 0 ≤ x then ⌊x⌋ else ⌈x⌉

/-- C fmod on rationals: remainder with the sign of the dividend. -/
def qfmod (x y : ℚ) : ℚ := x - (qtrunc (x / y) : ℚ) * y

-- ---------------------------------------------------------------------
-- Global constants from AioP13.h
-- ---------------------------------------------------------------------

/-- WGS-84 Earth ellipsoid equatorial radius, km. -/
noncomputable def g_scdRE : ℝ := 6378.137

/-- WGS-84 flattening. -/
noncomputable def g_scdFL : ℝ := 1 / 298.257224

/-- Polar radius, km. -/
noncomputable def g_scdRP : ℝ := g_scdRE * (1 - g_scdFL)

/-- Earth gravitational constant, km^3/s^2. -/
noncomputable def g_scdGM : ℝ := 3.986e5

/-- Second zonal coefficient of the Earth gravity field. -/
noncomputable def g_scdJ2 : ℝ := 1.08263e-3

/-- Tropical year, days. -/
noncomputable def g_scdYT : ℝ := 365.2421896698

/-- Earth rotation rate, radians per whole day. -/
noncomputable def g_scdWW : ℝ := 2 * π / g_scdYT

/-- Earth rotation rate, radians per day. -/
noncomputable def g_scdWE : ℝ := 2 * π + g_scdWW

/-- Earth rotation rate, radians per second. -/
noncomputable def g_scdW0 : ℝ := g_scdWE / 86400

/-- Reference year for GHA Aries (Jan 0.0). -/
def g_scdYG : ℤ := 2014

/-- GHA Aries at the reference epoch, degrees. -/
noncomputable def g_scdG0 : ℝ := 99.5828

/-- One astronomical unit, km. -/
noncomputable def g_scdAU : ℝ := 149.597870700e6

/-- Arduino radians(): degrees to radians. -/
noncomputable def radians (x : ℝ) : ℝ := x * (π / 180)

/-- Arduino degrees(): radians to degrees. -/
noncomputable def degrees (x : ℝ) : ℝ := x * (180 / π)

-- ---------------------------------------------------------------------
-- Time model (helper functions fnday / fndate and class P13DateTime)
-- ---------------------------------------------------------------------

/-- fnday: convert a date to a day-number.
Source: `(long)((double)y * 365.25) + (long)((double)(m+1) * 30.6) + (d - 428)`
after the month adjustment.  In exact arithmetic `y * 365.25 = 1461*y/4` and
`(m+1) * 30.6 = 153*(m+1)/5`; the double evaluation of both products rounds to
a value with the same truncation for every year reachable from the valid
range 1900-03-01..2100-02-28 (the products are exact, respectively within
2.2e-14 of the exact value while at least 0.2 away from the next integer,
and rounding to exactly 153, 306, 459 in the three integer cases). -/
def fnday (y m d : ℤ) : ℤ :=
  let y2 := if m < 3 then y - 1 else y
  let m2 := if m < 3 then m + 12 else m
  Int.tdiv (1461 * y2) 4 + Int.tdiv (153 * (m2 + 1)) 5 + (d - 428)

/-- fndate: convert a day-number back to a date; valid 1900-03-01..2100-02-28.
Source divisions `(dt - 122.1) / 365.25` and `dt / 30.61` are modelled by
`(20*dt - 2442) / 7305` and `(100*dt) / 3061` (the exact quotients stay at
least 1.5e-4 away from every integer on the valid range, far above the
double rounding error, so the truncations agree). -/
def fndate (dt : ℤ) : ℤ × ℤ × ℤ :=
  let t1 := dt + 428
  let y := Int.tdiv (20 * t1 - 2442) 7305
  let t2 := t1 - Int.tdiv (1461 * y) 4
  let m := Int.tdiv (100 * t2) 3061
  let t3 := t2 - Int.tdiv (153 * m) 5
  let m2 := m - 1
  if m2 > 12 then (y + 1, m2 - 12, t3) else (y, m2, t3)

/-- P13DateTime: a moment as day-number plus fractional day. -/
structure P13DateTime where
  c_lDN : ℤ
  c_dTN : ℚ
  deriving DecidableEq

/-- P13DateTime::settime. -/
def P13DateTime.settime (y m d h mi s : ℤ) : P13DateTime :=
  ⟨fnday y m d, ((h : ℚ) + (mi : ℚ) / 60 + (s : ℚ) / 3600) / 24⟩

/-- P13DateTime::gettime: day-number back to a date, fractional day decomposed
by successive multiply, truncate, subtract. -/
def P13DateTime.gettime (dt : P13DateTime) : ℤ × ℤ × ℤ × ℤ × ℤ × ℤ :=
  let ymd := fndate dt.c_lDN
  let t0 := dt.c_dTN * 24
  let h := qtrunc t0
  let t1 := (t0 - (h : ℚ)) * 60
  let mi := qtrunc t1
  let t2 := (t1 - (mi : ℚ)) * 60
  let s := qtrunc t2
  (ymd.1, ymd.2.1, ymd.2.2, h, mi, s)

/-- P13DateTime::add: add a day offset, carry the integer part of the
fractional day into the day-number by a truncating cast. -/
def P13DateTime.add (dt : P13DateTime) (days : ℚ) : P13DateTime :=
  let tn := dt.c_dTN + days
  ⟨dt.c_lDN + qtrunc tn, tn - (qtrunc tn : ℚ)⟩

/-- P13DateTime::roundup: advance to the next multiple of the interval,
with the same carry as add. -/
def P13DateTime.roundup (dt : P13DateTime) (t : ℚ) : P13DateTime :=
  let inc := t - qfmod dt.c_dTN t
  let tn := dt.c_dTN + inc
  ⟨dt.c_lDN + qtrunc tn, tn - (qtrunc tn : ℚ)⟩

/-- latlon2xy: linear equirectangular projection onto a pixel map, with the
C int casts truncating toward zero. -/
noncomputable def latlon2xy (lat lon : ℝ) (mapMaxX mapMaxY : ℤ) : ℤ × ℤ :=
  (rtrunc ((180 + lon) / 360 * (mapMaxX : ℝ)),
   rtrunc ((90 - lat) / 180 * (mapMaxY : ℝ)))

-- ---------------------------------------------------------------------
-- Calendar validity (for the round-trip claim)
-- ---------------------------------------------------------------------

/-- Days in a month under the 365.25-day mean-year convention of fnday
(every year divisible by 4 behaves as a leap year). -/
def daysInMonth (y m : ℤ) : ℤ :=
  if m = 2 then (if y % 4 = 0 then 29 else 28)
  else if m = 4 ∨ m = 6 ∨ m = 9 ∨ m = 11 then 30 else 31

/-- A calendar date inside the documented validity window
1900-03-01 .. 2100-02-28. -/
def validDate (y m d : ℤ) : Prop :=
  1 ≤ m ∧ m ≤ 12 ∧ 1 ≤ d ∧ d ≤ daysInMonth y m ∧
  1900 ≤ y ∧ y ≤ 2100 ∧
  (y = 1900 → 3 ≤ m) ∧ (y = 2100 → m ≤ 2 ∧ d ≤ 28)

instance (y m d : ℤ) : Decidable (validDate y m d) := by
  unfold validDate; infer_instance

-- ---------------------------------------------------------------------
-- Vectors and shared geometry helpers
-- ---------------------------------------------------------------------

/-- Vec3: a 3-component real vector, as in the source typedef. -/
abbrev Vec3 := ℝ × ℝ × ℝ

/-- Sum of squared components (the expression under the square root in the
source norm computations, written with squares). -/
def sumsq (v : Vec3) : ℝ := v.1 ^ 2 + v.2.1 ^ 2 + v.2.2 ^ 2

/-- Euclidean norm of a Vec3. -/
noncomputable def norm3 (v : Vec3) : ℝ := Real.sqrt (sumsq v)

/-- C atan2(y, x), modelled by the complex argument; range (-pi, pi]. -/
noncomputable def atan2 (y x : ℝ) : ℝ := Complex.arg ⟨x, y⟩

-- ---------------------------------------------------------------------
-- class P13Observer
-- ---------------------------------------------------------------------

structure P13Observer where
  c_dLA : ℝ
  c_dLO : ℝ
  c_dHT : ℝ
  c_vecU : Vec3
  c_vecE : Vec3
  c_vecN : Vec3
  c_vecO : Vec3
  c_vecV : Vec3

/-- The P13Observer constructor: derive the site basis vectors, position and
velocity from geodetic latitude, longitude (degrees) and altitude (m).
The observer name string is not modelled. -/
noncomputable def P13Observer.init (lat lon asl : ℝ) : P13Observer :=
  let LA := radians lat
  let LO := radians lon
  let HT := asl / 1000
  let CL := Real.cos LA
  let SL := Real.sin LA
  let CO := Real.cos LO
  let SO := Real.sin LO
  let U : Vec3 := (CL * CO, CL * SO, SL)
  let E : Vec3 := (-SO, CO, 0)
  let N : Vec3 := (-SL * CO, -SL * SO, CL)
  let D := Real.sqrt (g_scdRE * g_scdRE * CL * CL + g_scdRP * g_scdRP * SL * SL)
  let Rx := g_scdRE * g_scdRE / D + HT
  let Rz := g_scdRP * g_scdRP / D + HT
  let O : Vec3 := (Rx * U.1, Rx * U.2.1, Rz * U.2.2)
  let V : Vec3 := (-O.2.1 * g_scdW0, O.1 * g_scdW0, 0)
  ⟨LA, LO, HT, U, E, N, O, V⟩

-- ---------------------------------------------------------------------
-- class P13Satellite
-- ---------------------------------------------------------------------

/-- The orbital-element state of a P13Satellite after tle() has run
(the private cp_ fields; the name string and catalog number are not
modelled). -/
structure P13Satellite where
  cp_lYE : ℤ
  cp_dTE : ℝ
  cp_dIN : ℝ
  cp_dRA : ℝ
  cp_dEC : ℝ
  cp_dWP : ℝ
  cp_dMA : ℝ
  cp_dMM : ℝ
  cp_dM2 : ℝ
  cp_dRV : ℝ
  cp_lDE : ℤ
  cp_dN0 : ℝ
  cp_dA_0 : ℝ
  cp_dB_0 : ℝ
  cp_dPC : ℝ
  cp_dQD : ℝ
  cp_dWD : ℝ
  cp_dDC : ℝ

/-- P13Satellite::tle, applied to the already-parsed numeric field values of
the two element lines (the fixed-column string slicing by getdouble/getlong
is not modelled; each parameter is the number read from the corresponding
columns).  Mirrors lines 328-373 of the source: the Y2K pivot, the unit
conversions, and the derived quantities. -/
noncomputable def P13Satellite.tle (YEf : ℤ) (TEf M2f INf RAf ECf WPf MAf MMf RVf : ℝ) :
    P13Satellite :=
  let YE := if YEf < 58 then YEf + 2000 else YEf + 1900
  let M2 := 2 * π * M2f
  let IN := radians INf
  let RA := radians RAf
  let EC := ECf / 1e7
  let WP := radians WPf
  let MA := radians MAf
  let MM := 2 * π * MMf
  let RV := RVf
  let DE := fnday YE 1 0 + rtrunc TEf
  let TE := TEf - (rtrunc TEf : ℝ)
  let N0 := MM / 86400
  let A_0 := (g_scdGM / (N0 * N0)) ^ ((1 : ℝ) / 3)
  let B_0 := A_0 * Real.sqrt (1 - EC * EC)
  let PC0 := g_scdRE * A_0 / (B_0 * B_0)
  let PC := 1.5 * g_scdJ2 * PC0 * PC0 * MM
  let CI := Real.cos IN
  let QD := -PC * CI
  let WD := PC * (5 * CI * CI - 1) / 2
  let DC := -2 * M2 / (3 * MM)
  ⟨YE, TE, IN, RA, EC, WP, MA, MM, M2, RV, DE, N0, A_0, B_0, PC, QD, WD, DC⟩

/-- Elapsed time T since the element epoch, days (line 399). -/
noncomputable def predictT (sat : P13Satellite) (dt : P13DateTime) : ℝ :=
  ((dt.c_lDN - sat.cp_lDE : ℤ) : ℝ) + (((dt.c_dTN : ℚ) : ℝ) - sat.cp_dTE)

/-- Linear drag term DT (line 400). -/
noncomputable def predictDT (sat : P13Satellite) (dt : P13DateTime) : ℝ :=
  sat.cp_dDC * predictT sat dt / 2

/-- Linear drag factor KD (line 401). -/
noncomputable def predictKD (sat : P13Satellite) (dt : P13DateTime) : ℝ :=
  1 + 4 * predictDT sat dt

/-- Linear drag factor KDP (line 402). -/
noncomputable def predictKDP (sat : P13Satellite) (dt : P13DateTime) : ℝ :=
  1 - 7 * predictDT sat dt

/-- Drag-corrected mean anomaly at the target time, before reduction
(line 404). -/
noncomputable def predictMraw (sat : P13Satellite) (dt : P13DateTime) : ℝ :=
  sat.cp_dMA + sat.cp_dMM * predictT sat dt * (1 - 3 * predictDT sat dt)

/-- Whole revolutions stripped out of the mean anomaly by the truncating
cast (line 405). -/
noncomputable def predictDR (sat : P13Satellite) (dt : P13DateTime) : ℤ :=
  rtrunc (predictMraw sat dt / (2 * π))

/-- Reduced mean anomaly (line 406). -/
noncomputable def predictMred (sat : P13Satellite) (dt : P13DateTime) : ℝ :=
  predictMraw sat dt - (predictDR sat dt : ℝ) * (2 * π)

/-- Current orbit number RN (line 409); a local in the source, computed and
then unused. -/
noncomputable def predictRN (sat : P13Satellite) (dt : P13DateTime) : ℝ :=
  sat.cp_dRV + (predictDR sat dt : ℝ)

/-- The Newton-Raphson loop of predict (lines 414-422), as a fuel-indexed
recursion: each step evaluates the body once (cos, sin, denominator,
correction, update) and the do-while exits when the correction magnitude is
at most 1e-5.  Returns the final EA together with the cos/sin/denominator
values of the last body evaluation, which is what the following code uses.
none models fuel exhaustion; the source has no iteration cap. -/
noncomputable def kepler : ℕ → ℝ → ℝ → ℝ → Option (ℝ × ℝ × ℝ × ℝ)
  | 0, _, _, _ => none
  | (f + 1), ec, M, EA =>
    let C := Real.cos EA
    let S := Real.sin EA
    let DNOM := 1 - ec * C
    let D := (EA - ec * S - M) / DNOM
    if |D| ≤ 1e-5 then some (EA - D, C, S, DNOM) else kepler f ec M (EA - D)

/-- The 3x3 plane-to-celestial rotation rows CX, CY, CZ (lines 443-460). -/
structure Mat3 where
  CX : Vec3
  CY : Vec3
  CZ : Vec3

/-- Build the rotation rows from AP, RAAN and the inclination
(lines 436-460). -/
noncomputable def celestialMat (AP RAAN IN : ℝ) : Mat3 :=
  let CW := Real.cos AP
  let SW := Real.sin AP
  let CQ := Real.cos RAAN
  let SQ := Real.sin RAAN
  let CI := Real.cos IN
  let SI := Real.sin IN
  ⟨(CW * CQ - SW * CI * SQ, -SW * CQ - CW * CI * SQ, SI * SQ),
   (CW * SQ + SW * CI * CQ, -SW * SQ + CW * CI * CQ, -SI * CQ),
   (SW * SI, CW * SI, CI)⟩

/-- Apply the rotation to an orbit-plane vector with zero z-component
(lines 464-470: only the first two columns contribute). -/
noncomputable def applyPlane (m : Mat3) (p : ℝ × ℝ) : Vec3 :=
  (p.1 * m.CX.1 + p.2 * m.CX.2.1,
   p.1 * m.CY.1 + p.2 * m.CY.2.1,
   p.1 * m.CZ.1 + p.2 * m.CZ.2.1)

/-- Rotate a celestial vector into geocentric coordinates through the
Greenwich hour angle (lines 473-483). -/
noncomputable def geoRotate (ghaa : ℝ) (v : Vec3) : Vec3 :=
  let CG := Real.cos (-ghaa)
  let SG := Real.sin (-ghaa)
  (v.1 * CG - v.2.1 * SG, v.1 * SG + v.2.1 * CG, v.2.2)

/-- Argument of perigee at time T (line 436). -/
noncomputable def predictAP (sat : P13Satellite) (dt : P13DateTime) : ℝ :=
  sat.cp_dWP + sat.cp_dWD * predictT sat dt * predictKDP sat dt

/-- RAAN at time T (line 439). -/
noncomputable def predictRAAN (sat : P13Satellite) (dt : P13DateTime) : ℝ :=
  sat.cp_dRA + sat.cp_dQD * predictT sat dt * predictKDP sat dt

/-- GHA Aries at elapsed time T (lines 397 and 473). -/
noncomputable def predictGHAA (sat : P13Satellite) (dt : P13DateTime) : ℝ :=
  (radians g_scdG0 + (((sat.cp_lDE - fnday g_scdYG 1 0 : ℤ) : ℝ) + sat.cp_dTE) * g_scdWE)
    + g_scdWE * predictT sat dt

/-- The outputs of one predict() call: celestial and geocentric position and
velocity vectors plus the cached orbital radius. -/
structure PredictState where
  c_vecSAT : Vec3
  c_vecVEL : Vec3
  c_vecS : Vec3
  c_vecV : Vec3
  cp_dRS : ℝ

/-- The tail of P13Satellite::predict after the Kepler loop (lines 424-483),
from the loop output (EA, C_EA, S_EA, DNOM). -/
noncomputable def predictFinish (sat : P13Satellite) (dt : P13DateTime)
    (kout : ℝ × ℝ × ℝ × ℝ) : PredictState :=
  let C_EA := kout.2.1
  let S_EA := kout.2.2.1
  let DNOM := kout.2.2.2
  let A := sat.cp_dA_0 * predictKD sat dt
  let B := sat.cp_dB_0 * predictKD sat dt
  let RS := A * DNOM
  let Sp : ℝ × ℝ := (A * (C_EA - sat.cp_dEC), B * S_EA)
  let Vp : ℝ × ℝ := (-A * S_EA / DNOM * sat.cp_dN0, B * C_EA / DNOM * sat.cp_dN0)
  let M := celestialMat (predictAP sat dt) (predictRAAN sat dt) sat.cp_dIN
  let SAT := applyPlane M Sp
  let VEL := applyPlane M Vp
  let Sg := geoRotate (predictGHAA sat dt) SAT
  let Vg := geoRotate (predictGHAA sat dt) VEL
  ⟨SAT, VEL, Sg, Vg, RS⟩

/-- P13Satellite::predict (lines 376-484), given loop fuel for the Kepler
solver; none when the loop has not exited within the fuel bound. -/
noncomputable def P13Satellite.predict (sat : P13Satellite) (dt : P13DateTime) (fuel : ℕ) :
    Option PredictState :=
  (kepler fuel sat.cp_dEC (predictMred sat dt) (predictMred sat dt)).map
    (predictFinish sat dt)

/-- P13Satellite::latlon (lines 487-491), from the geocentric position and
the cached orbital radius. -/
noncomputable def P13Satellite.latlon (S : Vec3) (RS : ℝ) : ℝ × ℝ :=
  (degrees (Real.arcsin (S.2.2 / RS)), degrees (atan2 S.2.1 S.1))

/-- P13Satellite::elaz (lines 494-534): look angles from the geocentric
position and velocity of the most recent predict (members c_vecS, c_vecV in
the source, passed here as arguments) and the observer; returns
(elevation, azimuth, range-rate), the last being the cached cp_dRR. -/
noncomputable def P13Satellite.elaz (S V : Vec3) (obs : P13Observer) : ℝ × ℝ × ℝ :=
  let R : Vec3 := (S.1 - obs.c_vecO.1, S.2.1 - obs.c_vecO.2.1, S.2.2 - obs.c_vecO.2.2)
  let r := Real.sqrt (R.1 * R.1 + R.2.1 * R.2.1 + R.2.2 * R.2.2)
  let Rn : Vec3 := (R.1 / r, R.2.1 / r, R.2.2 / r)
  let du := Rn.1 * obs.c_vecU.1 + Rn.2.1 * obs.c_vecU.2.1 + Rn.2.2 * obs.c_vecU.2.2
  let de := Rn.1 * obs.c_vecE.1 + Rn.2.1 * obs.c_vecE.2.1
  let dn := Rn.1 * obs.c_vecN.1 + Rn.2.1 * obs.c_vecN.2.1 + Rn.2.2 * obs.c_vecN.2.2
  let az0 := degrees (atan2 de dn)
  let az := if az0 < 0 then az0 + 360 else az0
  let el := degrees (Real.arcsin du)
  let RR := (V.1 - obs.c_vecV.1) * Rn.1 + (V.2.1 - obs.c_vecV.2.1) * Rn.2.1 + V.2.2 * Rn.2.2
  (el, az, RR)

/-- P13Satellite::doppler (lines 583-600), from the cached range rate
cp_dRR (passed here as an argument); dir true is TX, false is RX. -/
noncomputable def P13Satellite.doppler (freqMHz RR : ℝ) (dir : Bool) : ℝ :=
  let shift := -freqMHz * RR / 299792
  if dir then freqMHz - shift else freqMHz + shift

/-- The angle around the footprint circle for point i of n
(line 562: 2*pi*i/n). -/
noncomputable def footprintAngle (i n : ℕ) : ℝ := 2 * π * (i : ℝ) / (n : ℝ)

/-- The body of the footprint loops (lines 562-576 and 737-751): build the
point of the small circle of angular radius srad at the given angle, rotate
up by the sub-point latitude and around by its longitude, convert back to
latitude/longitude and project to map pixels.  The sin/cos of srad and of
the sub-point are computed once outside the loop in the source; they are
recomputed here per point with identical values. -/
noncomputable def footprintPoint (srad lat lon angle : ℝ) (mapMaxX mapMaxY : ℤ) : ℤ × ℤ :=
  let sra := Real.sin srad
  let cra := Real.cos srad
  let cla := Real.cos (radians lat)
  let sla := Real.sin (radians lat)
  let clo := Real.cos (radians lon)
  let slo := Real.sin (radians lon)
  let Xfp := cra
  let Yfp := sra * Real.sin angle
  let Zfp := sra * Real.cos angle
  let x := Xfp * cla - Zfp * sla
  let y := Yfp
  let z := Xfp * sla + Zfp * cla
  let Xfp2 := x * clo - y * slo
  let Yfp2 := x * slo + y * clo
  let Zfp2 := z
  latlon2xy (degrees (Real.arcsin Zfp2)) (degrees (atan2 Yfp2 Xfp2)) mapMaxX mapMaxY

/-- P13Satellite::footprint (lines 540-579): numberofpoints points around the
visibility circle of angular radius arccos(RE / RS), RS being the cached
orbital radius of the most recent predict (passed here as an argument). -/
noncomputable def P13Satellite.footprint (numberofpoints : ℕ) (mapMaxX mapMaxY : ℤ)
    (satlat satlon RS : ℝ) : List (ℤ × ℤ) :=
  (List.range numberofpoints).map fun i =>
    footprintPoint (Real.arccos (g_scdRE / RS)) satlat satlon
      (footprintAngle i numberofpoints) mapMaxX mapMaxY

/-- P13Sun::elaz (lines 665-702): as the satellite case but the range vector
scales the sun unit vector (member c_vecH, passed as an argument) by one
astronomical unit, and no range rate is produced. -/
noncomputable def P13Sun.elaz (H : Vec3) (obs : P13Observer) : ℝ × ℝ :=
  let R : Vec3 := (H.1 * g_scdAU - obs.c_vecO.1, H.2.1 * g_scdAU - obs.c_vecO.2.1,
    H.2.2 * g_scdAU - obs.c_vecO.2.2)
  let r := Real.sqrt (R.1 * R.1 + R.2.1 * R.2.1 + R.2.2 * R.2.2)
  let Rn : Vec3 := (R.1 / r, R.2.1 / r, R.2.2 / r)
  let du := Rn.1 * obs.c_vecU.1 + Rn.2.1 * obs.c_vecU.2.1 + Rn.2.2 * obs.c_vecU.2.2
  let de := Rn.1 * obs.c_vecE.1 + Rn.2.1 * obs.c_vecE.2.1
  let dn := Rn.1 * obs.c_vecN.1 + Rn.2.1 * obs.c_vecN.2.1 + Rn.2.2 * obs.c_vecN.2.2
  let az0 := degrees (atan2 de dn)
  let az := if az0 < 0 then az0 + 360 else az0
  let el := degrees (Real.arcsin du)
  (el, az)

/-- P13Sun::footprint (lines 715-754): the same construction as the satellite
footprint with the orbital radius replaced by one astronomical unit. -/
noncomputable def P13Sun.footprint (numberofpoints : ℕ) (mapMaxX mapMaxY : ℤ)
    (sunlat sunlon : ℝ) : List (ℤ × ℤ) :=
  (List.range numberofpoints).map fun i =>
    footprintPoint (Real.arccos (g_scdRE / g_scdAU)) sunlat sunlon
      (footprintAngle i numberofpoints) mapMaxX mapMaxY

-- ---------------------------------------------------------------------
-- Helper lemmas
-- ---------------------------------------------------------------------

lemma qtrunc_of_nonneg {x : ℚ} (h : 0 ≤ x) : qtrunc x = ⌊x⌋ := if_pos h

lemma qtrunc_of_neg {x : ℚ} (h : x < 0) : qtrunc x = ⌈x⌉ := if_neg (not_le.mpr h)

lemma sub_qtrunc_of_nonneg {x : ℚ} (h : 0 ≤ x) :
    0 ≤ x - (qtrunc x : ℚ) ∧ x - (qtrunc x : ℚ) < 1 := by
  rw [qtrunc_of_nonneg h]
  constructor
  · have := Int.fract_nonneg x
    rw [Int.fract] at this; linarith
  · have := Int.fract_lt_one x
    rw [Int.fract] at this; linarith

lemma sub_qtrunc_of_neg {x : ℚ} (h : x < 0) :
    -1 < x - (qtrunc x : ℚ) ∧ x - (qtrunc x : ℚ) ≤ 0 := by
  rw [qtrunc_of_neg h]
  constructor
  · have := Int.ceil_lt_add_one x
    linarith
  · have := Int.le_ceil x
    linarith

-- ---------------------------------------------------------------------
-- Theorems
-- ---------------------------------------------------------------------

lemma fndate_fnday (y m d : ℤ) (hv : validDate y m d) :
    fndate (fnday y m d) = (y, m, d) := by
  obtain ⟨h1, h2, h3, h4, h5, h6, h7, h8⟩ := hv
  unfold daysInMonth at h4
  rcases lt_or_ge m 3 with hc | hc
  · simp only [fnday, fndate, if_pos hc]
    have e1 : Int.tdiv (1461 * (y - 1)) 4 = 1461 * (y - 1) / 4 :=
      Int.tdiv_eq_ediv (by omega) (by omega)
    rw [e1]
    have e2 : Int.tdiv (153 * (m + 12 + 1)) 5 = 153 * (m + 12 + 1) / 5 :=
      Int.tdiv_eq_ediv (by omega) (by omega)
    rw [e2]
    have e3 : Int.tdiv
        (20 * (1461 * (y - 1) / 4 + 153 * (m + 12 + 1) / 5 + (d - 428) + 428) - 2442) 7305 =
        (20 * (1461 * (y - 1) / 4 + 153 * (m + 12 + 1) / 5 + (d - 428) + 428) - 2442) / 7305 :=
      Int.tdiv_eq_ediv (by omega) (by omega)
    rw [e3]
    set Y := (20 * (1461 * (y - 1) / 4 + 153 * (m + 12 + 1) / 5 + (d - 428) + 428) - 2442) / 7305
      with hY
    have hY0 : 0 ≤ Y := by rw [hY]; omega
    have e4 : Int.tdiv (1461 * Y) 4 = 1461 * Y / 4 := Int.tdiv_eq_ediv (by omega) (by omega)
    rw [e4]
    set T2 := 1461 * (y - 1) / 4 + 153 * (m + 12 + 1) / 5 + (d - 428) + 428 - 1461 * Y / 4
      with hT2
    have hT20 : 0 ≤ T2 := by rw [hT2, hY]; omega
    have e5 : Int.tdiv (100 * T2) 3061 = 100 * T2 / 3061 :=
      Int.tdiv_eq_ediv (by omega) (by omega)
    rw [e5]
    have e6 : Int.tdiv (153 * (100 * T2 / 3061)) 5 = 153 * (100 * T2 / 3061) / 5 :=
      Int.tdiv_eq_ediv (by omega) (by omega)
    rw [e6]
    have hY1 : Y = y - 1 := by omega
    have hT2v : T2 = 153 * (m + 12 + 1) / 5 + d := by omega
    interval_cases m <;> norm_num at h4 <;> split_ifs <;>
      simp only [Prod.mk.injEq] <;> omega
  · simp only [fnday, fndate, if_neg (not_lt.mpr hc)]
    have e1 : Int.tdiv (1461 * y) 4 = 1461 * y / 4 :=
      Int.tdiv_eq_ediv (by omega) (by omega)
    rw [e1]
    have e2 : Int.tdiv (153 * (m + 1)) 5 = 153 * (m + 1) / 5 :=
      Int.tdiv_eq_ediv (by omega) (by omega)
    rw [e2]
    have e3 : Int.tdiv
        (20 * (1461 * y / 4 + 153 * (m + 1) / 5 + (d - 428) + 428) - 2442) 7305 =
        (20 * (1461 * y / 4 + 153 * (m + 1) / 5 + (d - 428) + 428) - 2442) / 7305 :=
      Int.tdiv_eq_ediv (by omega) (by omega)
    rw [e3]
    set Y := (20 * (1461 * y / 4 + 153 * (m + 1) / 5 + (d - 428) + 428) - 2442) / 7305
      with hY
    have hY0 : 0 ≤ Y := by rw [hY]; omega
    have e4 : Int.tdiv (1461 * Y) 4 = 1461 * Y / 4 := Int.tdiv_eq_ediv (by omega) (by omega)
    rw [e4]
    set T2 := 1461 * y / 4 + 153 * (m + 1) / 5 + (d - 428) + 428 - 1461 * Y / 4
      with hT2
    have hT20 : 0 ≤ T2 := by rw [hT2, hY]; omega
    have e5 : Int.tdiv (100 * T2) 3061 = 100 * T2 / 3061 :=
      Int.tdiv_eq_ediv (by omega) (by omega)
    rw [e5]
    have e6 : Int.tdiv (153 * (100 * T2 / 3061)) 5 = 153 * (100 * T2 / 3061) / 5 :=
      Int.tdiv_eq_ediv (by omega) (by omega)
    rw [e6]
    have hY1 : Y = y := by omega
    have hT2v : T2 = 153 * (m + 1) / 5 + d := by omega
    interval_cases m <;> norm_num at h4 <;> split_ifs <;>
      simp only [Prod.mk.injEq] <;> omega

lemma gettime_settime_time (h mi s : ℤ)
    (hh0 : 0 ≤ h) (hh1 : h ≤ 23) (hm0 : 0 ≤ mi) (hm1 : mi ≤ 59)
    (hs0 : 0 ≤ s) (hs1 : s ≤ 59) :
    qtrunc ((((h : ℚ) + (mi : ℚ) / 60 + (s : ℚ) / 3600) / 24) * 24) = h ∧
    qtrunc (((((h : ℚ) + (mi : ℚ) / 60 + (s : ℚ) / 3600) / 24) * 24 - (h : ℚ)) * 60) = mi ∧
    qtrunc ((((((h : ℚ) + (mi : ℚ) / 60 + (s : ℚ) / 3600) / 24) * 24 - (h : ℚ)) * 60
        - (mi : ℚ)) * 60) = s := by
  have hq0 : (0:ℚ) ≤ (h : ℚ) := by exact_mod_cast hh0
  have hq2 : (0:ℚ) ≤ (mi : ℚ) := by exact_mod_cast hm0
  have hq3 : (mi : ℚ) ≤ 59 := by exact_mod_cast hm1
  have hq4 : (0:ℚ) ≤ (s : ℚ) := by exact_mod_cast hs0
  have hq5 : (s : ℚ) ≤ 59 := by exact_mod_cast hs1
  have ht0 : (((h : ℚ) + (mi : ℚ) / 60 + (s : ℚ) / 3600) / 24) * 24
      = (h : ℚ) + (mi : ℚ) / 60 + (s : ℚ) / 3600 := by ring
  rw [ht0]
  have hfh : qtrunc ((h : ℚ) + (mi : ℚ) / 60 + (s : ℚ) / 3600) = h := by
    rw [qtrunc_of_nonneg (by linarith), Int.floor_eq_iff]
    constructor
    · linarith
    · linarith
  refine ⟨hfh, ?_, ?_⟩
  · have ht1 : ((h : ℚ) + (mi : ℚ) / 60 + (s : ℚ) / 3600 - (h : ℚ)) * 60
        = (mi : ℚ) + (s : ℚ) / 60 := by ring
    rw [ht1, qtrunc_of_nonneg (by linarith), Int.floor_eq_iff]
    constructor
    · linarith
    · linarith
  · have ht2 : (((h : ℚ) + (mi : ℚ) / 60 + (s : ℚ) / 3600 - (h : ℚ)) * 60 - (mi : ℚ)) * 60
        = (s : ℚ) := by ring
    rw [ht2, qtrunc_of_nonneg hq4, Int.floor_intCast]

/-- Claim C2: for every valid calendar date between 1900-03-01 and 2100-02-28
with hour in 0..23, minute in 0..59 and second in 0..59, converting to a
timestamp with settime and back with gettime returns the same tuple (in the
exact-arithmetic model the round trip is exact; the truncation toward zero in
gettime loses nothing). -/
theorem settime_gettime_roundtrip (y m d h mi s : ℤ)
    (hv : validDate y m d) (hh0 : 0 ≤ h) (hh1 : h ≤ 23)
    (hm0 : 0 ≤ mi) (hm1 : mi ≤ 59) (hs0 : 0 ≤ s) (hs1 : s ≤ 59) :
    (P13DateTime.settime y m d h mi s).gettime = (y, m, d, h, mi, s) := by
  obtain ⟨hH, hM, hS⟩ := gettime_settime_time h mi s hh0 hh1 hm0 hm1 hs0 hs1
  simp only [P13DateTime.gettime, P13DateTime.settime, fndate_fnday y m d hv]
  rw [hH, hM, hS]

/-- Claim C2 witness: a concrete round trip. -/
theorem settime_gettime_roundtrip_witness :
    (P13DateTime.settime 2000 6 15 12 30 45).gettime = (2000, 6, 15, 12, 30, 45) :=
  settime_gettime_roundtrip 2000 6 15 12 30 45 (by decide) (by decide) (by decide)
    (by decide) (by decide) (by decide) (by decide)

/-- Claim C3 counterexample: adding -1 day to a timestamp with fractional day
1/2 leaves the fractional day at -1/2, outside [0,1): the carry cast truncates
toward zero rather than flooring toward negative infinity. -/
theorem add_trunc_counterexample :
    (P13DateTime.add ⟨0, 1/2⟩ (-1)).c_dTN = -(1/2) ∧
    ¬ (0 ≤ (P13DateTime.add ⟨0, 1/2⟩ (-1)).c_dTN ∧
       (P13DateTime.add ⟨0, 1/2⟩ (-1)).c_dTN < 1) := by
  have h0 : (P13DateTime.add ⟨0, 1/2⟩ (-1)).c_dTN = -(1/2) := by
    norm_num [P13DateTime.add, qtrunc]
  refine ⟨h0, ?_⟩
  rw [h0]
  norm_num

/-- Claim C3 amended: add preserves the represented instant
(day-number plus fractional day); the fractional day is renormalized into
[0,1) whenever the updated fractional value is nonnegative (in particular for
every nonnegative deltaDays), but the truncating carry leaves a negative
updated fractional value in (-1,0]; roundup with a positive interval always
renormalizes into [0,1) and also preserves the instant up to the added
increment. -/
theorem add_roundup_renormalize (dt : P13DateTime) (δ p : ℚ)
    (h0 : 0 ≤ dt.c_dTN) (h1 : dt.c_dTN < 1) (hp : 0 < p) :
    (((dt.add δ).c_lDN : ℚ) + (dt.add δ).c_dTN = (dt.c_lDN : ℚ) + dt.c_dTN + δ) ∧
    (0 ≤ dt.c_dTN + δ → 0 ≤ (dt.add δ).c_dTN ∧ (dt.add δ).c_dTN < 1) ∧
    (dt.c_dTN + δ < 0 → -1 < (dt.add δ).c_dTN ∧ (dt.add δ).c_dTN ≤ 0) ∧
    (((dt.roundup p).c_lDN : ℚ) + (dt.roundup p).c_dTN
        = (dt.c_lDN : ℚ) + dt.c_dTN + (p - qfmod dt.c_dTN p)) ∧
    (0 ≤ (dt.roundup p).c_dTN ∧ (dt.roundup p).c_dTN < 1) := by
  refine ⟨?_, ?_, ?_, ?_, ?_⟩
  · simp only [P13DateTime.add]
    push_cast
    ring
  · intro hge
    simpa only [P13DateTime.add] using sub_qtrunc_of_nonneg hge
  · intro hlt
    simpa only [P13DateTime.add] using sub_qtrunc_of_neg hlt
  · simp only [P13DateTime.roundup]
    push_cast
    ring
  · have hdiv : (0:ℚ) ≤ dt.c_dTN / p := div_nonneg h0 hp.le
    have hfl : (0:ℤ) ≤ ⌊dt.c_dTN / p⌋ := Int.floor_nonneg.mpr hdiv
    have hmod : qfmod dt.c_dTN p ≤ dt.c_dTN := by
      unfold qfmod
      rw [qtrunc_of_nonneg hdiv]
      have : (0:ℚ) ≤ (⌊dt.c_dTN / p⌋ : ℚ) * p :=
        mul_nonneg (by exact_mod_cast hfl) hp.le
      linarith
    have hge : 0 ≤ dt.c_dTN + (p - qfmod dt.c_dTN p) := by linarith
    simpa only [P13DateTime.roundup] using sub_qtrunc_of_nonneg hge

/-- Claim C3 witness: a concrete application of the amended statement. -/
theorem add_roundup_renormalize_witness :
    0 ≤ (P13DateTime.add ⟨0, 0⟩ (1/2)).c_dTN ∧ (P13DateTime.add ⟨0, 0⟩ (1/2)).c_dTN < 1 :=
  (add_roundup_renormalize ⟨0, 0⟩ (1/2) 1 (by norm_num) (by norm_num) (by norm_num)).2.1
    (by norm_num)

lemma rtrunc_intCast (n : ℤ) : rtrunc ((n : ℝ)) = n := by
  unfold rtrunc
  split_ifs <;> simp

lemma rtrunc_half_int (n : ℤ) : rtrunc ((n : ℝ) / 2) = Int.tdiv n 2 := by
  rcases Int.even_or_odd n with ⟨k, hk⟩ | ⟨k, hk⟩
  · subst hk
    have h2 : ((k + k : ℤ) : ℝ) / 2 = (k : ℝ) := by push_cast; ring
    rw [h2, rtrunc_intCast]
    have : k + k = 2 * k := by ring
    rw [this, Int.mul_tdiv_cancel_left _ (by norm_num)]
  · subst hk
    have h2 : ((2 * k + 1 : ℤ) : ℝ) / 2 = (k : ℝ) + 1 / 2 := by push_cast; ring
    rw [h2]
    rcases le_or_lt 0 k with hk0 | hk0
    · have hnn : (0:ℝ) ≤ (k : ℝ) + 1 / 2 := by
        have : (0:ℝ) ≤ (k : ℝ) := by exact_mod_cast hk0
        linarith
      rw [rtrunc, if_pos hnn]
      have hfl : ⌊(k : ℝ) + 1 / 2⌋ = k := by
        rw [Int.floor_eq_iff]
        constructor
        · linarith
        · norm_num
      rw [hfl, Int.tdiv_eq_ediv (by omega) (by omega)]
      omega
    · have hneg : ¬ (0:ℝ) ≤ (k : ℝ) + 1 / 2 := by
        have hk1 : k ≤ -1 := by omega
        have : (k : ℝ) ≤ -1 := by exact_mod_cast hk1
        push_neg
        linarith
      rw [rtrunc, if_neg hneg]
      have hcl : ⌈(k : ℝ) + 1 / 2⌉ = k + 1 := by
        rw [Int.ceil_eq_iff]
        constructor
        · push_cast; norm_num
        · push_cast; norm_num
      rw [hcl]
      have hneg2 : 2 * k + 1 = -(-(2 * k + 1)) := by ring
      rw [hneg2, Int.neg_tdiv, Int.tdiv_eq_ediv (by omega) (by omega)]
      omega

/-- Claim C10: the equirectangular map projection sends latitude 0, longitude 0
to the pixel (W/2, H/2) (W/2 and H/2 computed with the truncating integer
division of the C cast) and latitude 90, longitude -180 to the pixel (0, 0),
for every map width and height. -/
theorem latlon2xy_anchor_points (w h : ℤ) :
    latlon2xy 0 0 w h = (Int.tdiv w 2, Int.tdiv h 2) ∧
    latlon2xy 90 (-180) w h = (0, 0) := by
  constructor
  · unfold latlon2xy
    have hx : (180 + (0:ℝ)) / 360 * (w : ℝ) = (w : ℝ) / 2 := by norm_num; ring
    have hy : (90 - (0:ℝ)) / 180 * (h : ℝ) = (h : ℝ) / 2 := by norm_num; ring
    rw [hx, hy, rtrunc_half_int, rtrunc_half_int]
  · unfold latlon2xy
    have hx : (180 + (-180:ℝ)) / 360 * (w : ℝ) = ((0:ℤ) : ℝ) := by norm_num
    have hy : (90 - (90:ℝ)) / 180 * (h : ℝ) = ((0:ℤ) : ℝ) := by norm_num
    rw [hx, hy, rtrunc_intCast]

-- ---------------------------------------------------------------------
-- Doppler (claim C6)
-- ---------------------------------------------------------------------

/-- Claim C6: doppler computes the shift -f*r/299792; the TX (uplink) result
subtracts it and the RX (downlink) result adds it, so the two results are
displaced from f by equal and opposite amounts, and both equal f exactly when
the range rate is zero. -/
theorem doppler_shift_symmetry (f r : ℝ) :
    P13Satellite.doppler f r true = f + f * r / 299792 ∧
    P13Satellite.doppler f r false = f - f * r / 299792 ∧
    P13Satellite.doppler f r true - f = -(P13Satellite.doppler f r false - f) ∧
    (r = 0 → P13Satellite.doppler f r true = f ∧ P13Satellite.doppler f r false = f) := by
  have ht : P13Satellite.doppler f r true = f + f * r / 299792 := by
    show f - (-f * r / 299792) = f + f * r / 299792
    ring
  have hx : P13Satellite.doppler f r false = f - f * r / 299792 := by
    show f + (-f * r / 299792) = f - f * r / 299792
    ring
  refine ⟨ht, hx, ?_, ?_⟩
  · rw [ht, hx]
    ring
  · intro hr
    subst hr
    rw [ht, hx]
    constructor <;> ring

/-- Claim C6 witness: zero range rate leaves a concrete frequency unchanged
in both directions. -/
theorem doppler_shift_symmetry_witness :
    P13Satellite.doppler 2 0 true = 2 ∧ P13Satellite.doppler 2 0 false = 2 :=
  (doppler_shift_symmetry 2 0).2.2.2 rfl

-- ---------------------------------------------------------------------
-- Footprints (claim C9)
-- ---------------------------------------------------------------------

/-- Claim C9: for every point count n of at least 1, both footprints produce
exactly n coordinate pairs; the generating angles are uniformly spaced at
2*pi/n; point i of the satellite footprint is the projection of the circle
point of angular radius arccos(RE/RS) at angle 2*pi*i/n, and the Sun variant
uses radius arccos(RE/AU). -/
theorem footprint_points_uniform (n : ℕ) (hn : 1 ≤ n) (X Y : ℤ) (lat lon RS : ℝ) :
    (P13Satellite.footprint n X Y lat lon RS).length = n ∧
    (P13Sun.footprint n X Y lat lon).length = n ∧
    (∀ i : ℕ, footprintAngle (i + 1) n - footprintAngle i n = 2 * π / (n : ℝ)) ∧
    (∀ i : ℕ, i < n →
      (P13Satellite.footprint n X Y lat lon RS)[i]? =
        some (footprintPoint (Real.arccos (g_scdRE / RS)) lat lon (footprintAngle i n) X Y) ∧
      (P13Sun.footprint n X Y lat lon)[i]? =
        some (footprintPoint (Real.arccos (g_scdRE / g_scdAU)) lat lon
          (footprintAngle i n) X Y)) := by
  have hn0 : (n : ℝ) ≠ 0 := Nat.cast_ne_zero.mpr (by omega)
  refine ⟨?_, ?_, ?_, ?_⟩
  · simp [P13Satellite.footprint]
  · simp [P13Sun.footprint]
  · intro i
    unfold footprintAngle
    push_cast
    field_simp
    ring
  · intro i hi
    constructor
    · simp [P13Satellite.footprint, List.getElem?_map, List.getElem?_range, hi]
    · simp [P13Sun.footprint, List.getElem?_map, List.getElem?_range, hi]

/-- Claim C9 witness: one-point footprints at a concrete input. -/
theorem footprint_points_uniform_witness :
    (P13Satellite.footprint 1 0 0 0 0 1).length = 1 ∧
    (P13Sun.footprint 1 0 0 0 0).length = 1 :=
  ⟨(footprint_points_uniform 1 (le_refl 1) 0 0 0 0 1).1,
   (footprint_points_uniform 1 (le_refl 1) 0 0 0 0 1).2.1⟩

-- ---------------------------------------------------------------------
-- Kepler solver at zero eccentricity (claim C7)
-- ---------------------------------------------------------------------

lemma kepler_ecc_zero (M : ℝ) (f : ℕ) :
    kepler (f + 1) 0 M M = some (M, Real.cos M, Real.sin M, 1) := by
  simp only [kepler]
  norm_num

/-- Claim C7: with eccentricity exactly 0, the Kepler loop computes a first
correction of zero and exits on its first iteration with E = M unchanged
(together with the cos/sin/denominator values of that single body
evaluation), for any mean anomaly and any fuel of at least one iteration. -/
theorem kepler_circular_identity (M : ℝ) (fuel : ℕ) (hf : 1 ≤ fuel) :
    kepler fuel 0 M M = some (M, Real.cos M, Real.sin M, 1) := by
  obtain ⟨f, rfl⟩ : ∃ f, fuel = f + 1 := ⟨fuel - 1, by omega⟩
  exact kepler_ecc_zero M f

/-- Claim C7 witness: the loop at M = 0 with one unit of fuel. -/
theorem kepler_circular_identity_witness :
    kepler 1 0 0 0 = some (0, 1, 0, 1) := by
  have h := kepler_circular_identity 0 1 (le_refl 1)
  simpa using h

-- ---------------------------------------------------------------------
-- Mean anomaly reduction (claim C4)
-- ---------------------------------------------------------------------

lemma rtrunc_of_nonneg {x : ℝ} (h : 0 ≤ x) : rtrunc x = ⌊x⌋ := if_pos h

lemma rtrunc_of_neg {x : ℝ} (h : x < 0) : rtrunc x = ⌈x⌉ := if_neg (not_le.mpr h)

/-- Claim C4 amended: the reduction step subtracts the truncated number of
whole revolutions times 2*pi and sets the orbit number to the epoch
revolution count plus that multiple; the reduced mean anomaly lies in
[0, 2*pi) whenever the drag-corrected mean anomaly is nonnegative, but for a
negative mean anomaly (a target time far enough before epoch) the truncation
toward zero leaves it in (-2*pi, 0] instead. -/
theorem predict_anomaly_reduction (sat : P13Satellite) (dt : P13DateTime) :
    (0 ≤ predictMraw sat dt →
      0 ≤ predictMred sat dt ∧ predictMred sat dt < 2 * π) ∧
    (predictMraw sat dt < 0 →
      -(2 * π) < predictMred sat dt ∧ predictMred sat dt ≤ 0) ∧
    predictMred sat dt = predictMraw sat dt - (predictDR sat dt : ℝ) * (2 * π) ∧
    predictRN sat dt = sat.cp_dRV + (predictDR sat dt : ℝ) := by
  have hpi : (0:ℝ) < 2 * π := by positivity
  have hMq : predictMraw sat dt / (2 * π) * (2 * π) = predictMraw sat dt :=
    div_mul_cancel₀ _ (ne_of_gt hpi)
  refine ⟨?_, ?_, rfl, rfl⟩
  · intro h0
    have hq0 : 0 ≤ predictMraw sat dt / (2 * π) := div_nonneg h0 hpi.le
    have hdr : predictDR sat dt = ⌊predictMraw sat dt / (2 * π)⌋ := by
      unfold predictDR
      rw [rtrunc_of_nonneg hq0]
    have h1 : (⌊predictMraw sat dt / (2 * π)⌋ : ℝ) ≤ predictMraw sat dt / (2 * π) :=
      Int.floor_le _
    have h2 : predictMraw sat dt / (2 * π) < ⌊predictMraw sat dt / (2 * π)⌋ + 1 :=
      Int.lt_floor_add_one _
    have h3 := mul_le_mul_of_nonneg_right h1 hpi.le
    have h4 := mul_lt_mul_of_pos_right h2 hpi
    rw [hMq] at h3 h4
    unfold predictMred
    rw [hdr]
    constructor
    · linarith
    · nlinarith
  · intro h0
    have hq0 : predictMraw sat dt / (2 * π) < 0 := div_neg_of_neg_of_pos h0 hpi
    have hdr : predictDR sat dt = ⌈predictMraw sat dt / (2 * π)⌉ := by
      unfold predictDR
      rw [rtrunc_of_neg hq0]
    have h1 : predictMraw sat dt / (2 * π) ≤ (⌈predictMraw sat dt / (2 * π)⌉ : ℝ) :=
      Int.le_ceil _
    have h2 : (⌈predictMraw sat dt / (2 * π)⌉ : ℝ) < predictMraw sat dt / (2 * π) + 1 :=
      Int.ceil_lt_add_one _
    have h3 := mul_le_mul_of_nonneg_right h1 hpi.le
    have h4 := mul_lt_mul_of_pos_right h2 hpi
    rw [hMq] at h3
    have hexp : (predictMraw sat dt / (2 * π) + 1) * (2 * π)
        = predictMraw sat dt + 2 * π := by
      rw [add_mul, hMq]
      ring
    rw [hexp] at h4
    unfold predictMred
    rw [hdr]
    constructor
    · linarith
    · linarith

lemma rtrunc_zero : rtrunc 0 = 0 := by
  unfold rtrunc
  simp

/-- Claim C4 counterexample: a concrete element set and a timestamp half a
day before epoch give drag-corrected mean anomaly -pi; the truncating cast
strips zero revolutions and the reduced mean anomaly stays -pi, outside
[0, 2*pi). -/
theorem predict_anomaly_reduction_counterexample :
    predictMred (P13Satellite.tle 20 0 0 0 0 0 0 0 1 0) ⟨fnday 2020 1 0 - 1, 1/2⟩ = -π ∧
    ¬ (0 ≤ predictMred (P13Satellite.tle 20 0 0 0 0 0 0 0 1 0)
        ⟨fnday 2020 1 0 - 1, 1/2⟩) := by
  have hpi := Real.pi_pos
  have hT : predictT (P13Satellite.tle 20 0 0 0 0 0 0 0 1 0) ⟨fnday 2020 1 0 - 1, 1/2⟩
      = -(1/2) := by
    unfold predictT P13Satellite.tle
    simp only [rtrunc_zero]
    push_cast
    norm_num
  have hMraw : predictMraw (P13Satellite.tle 20 0 0 0 0 0 0 0 1 0)
      ⟨fnday 2020 1 0 - 1, 1/2⟩ = -π := by
    unfold predictMraw predictDT
    rw [hT]
    unfold P13Satellite.tle radians
    norm_num
    ring
  have hq : -π / (2 * π) = -(1/2 : ℝ) := by
    rw [div_eq_iff (by positivity : (2:ℝ) * π ≠ 0)]
    ring
  have hDR : predictDR (P13Satellite.tle 20 0 0 0 0 0 0 0 1 0)
      ⟨fnday 2020 1 0 - 1, 1/2⟩ = 0 := by
    unfold predictDR
    rw [hMraw, hq, rtrunc_of_neg (by norm_num)]
    norm_num
  have hMred : predictMred (P13Satellite.tle 20 0 0 0 0 0 0 0 1 0)
      ⟨fnday 2020 1 0 - 1, 1/2⟩ = -π := by
    unfold predictMred
    rw [hMraw, hDR]
    norm_num
  refine ⟨hMred, ?_⟩
  rw [hMred]
  push_neg
  linarith

/-- Claim C4 witness: at the epoch timestamp the drag-corrected mean anomaly
of the same element set is 0 and the reduction lands in [0, 2*pi). -/
theorem predict_anomaly_reduction_witness :
    0 ≤ predictMred (P13Satellite.tle 20 0 0 0 0 0 0 0 1 0) ⟨fnday 2020 1 0, 0⟩ ∧
    predictMred (P13Satellite.tle 20 0 0 0 0 0 0 0 1 0) ⟨fnday 2020 1 0, 0⟩ < 2 * π := by
  apply (predict_anomaly_reduction (P13Satellite.tle 20 0 0 0 0 0 0 0 1 0)
    ⟨fnday 2020 1 0, 0⟩).1
  have hT : predictT (P13Satellite.tle 20 0 0 0 0 0 0 0 1 0) ⟨fnday 2020 1 0, 0⟩ = 0 := by
    unfold predictT P13Satellite.tle
    simp only [rtrunc_zero]
    push_cast
    norm_num
  unfold predictMraw predictDT
  rw [hT]
  unfold P13Satellite.tle radians
  norm_num

-- ---------------------------------------------------------------------
-- Look angle ranges (claim C5)
-- ---------------------------------------------------------------------

lemma az_norm_range (de dn : ℝ) :
    0 ≤ (if degrees (atan2 de dn) < 0 then degrees (atan2 de dn) + 360
         else degrees (atan2 de dn)) ∧
    (if degrees (atan2 de dn) < 0 then degrees (atan2 de dn) + 360
     else degrees (atan2 de dn)) < 360 := by
  have hpi := Real.pi_pos
  have h1 : -π < atan2 de dn := Complex.neg_pi_lt_arg _
  have h2 : atan2 de dn ≤ π := Complex.arg_le_pi _
  have hfr : (0:ℝ) < 180 / π := by positivity
  have hub : degrees (atan2 de dn) ≤ 180 := by
    unfold degrees
    calc atan2 de dn * (180 / π) ≤ π * (180 / π) := mul_le_mul_of_nonneg_right h2 hfr.le
    _ = 180 := by field_simp
  have hlb : -180 < degrees (atan2 de dn) := by
    unfold degrees
    calc (-180 : ℝ) = -π * (180 / π) := by field_simp; ring
    _ < atan2 de dn * (180 / π) := mul_lt_mul_of_pos_right h1 hfr
  split_ifs with hc
  · exact ⟨by linarith, by linarith⟩
  · exact ⟨by linarith, by linarith⟩

lemma el_degrees_range (x : ℝ) :
    -90 ≤ degrees (Real.arcsin x) ∧ degrees (Real.arcsin x) ≤ 90 := by
  have hpi := Real.pi_pos
  have h1 : -(π / 2) ≤ Real.arcsin x := Real.neg_pi_div_two_le_arcsin x
  have h2 : Real.arcsin x ≤ π / 2 := Real.arcsin_le_pi_div_two x
  have hfr : (0:ℝ) < 180 / π := by positivity
  unfold degrees
  constructor
  · calc (-90 : ℝ) = -(π / 2) * (180 / π) := by field_simp; ring
    _ ≤ Real.arcsin x * (180 / π) := mul_le_mul_of_nonneg_right h1 hfr.le
  · calc Real.arcsin x * (180 / π) ≤ (π / 2) * (180 / π) :=
      mul_le_mul_of_nonneg_right h2 hfr.le
    _ = 90 := by field_simp; ring

/-- Claim C5: for every observer site and every satellite or Sun state with a
nonzero range vector, the look angles satisfy azimuth in [0, 360) degrees and
elevation in [-90, 90] degrees (for both P13Satellite::elaz and
P13Sun::elaz). -/
theorem elaz_output_ranges (lat lon asl : ℝ) (S V H : Vec3)
    (hS : S ≠ (P13Observer.init lat lon asl).c_vecO)
    (hH : (H.1 * g_scdAU, H.2.1 * g_scdAU, H.2.2 * g_scdAU)
        ≠ (P13Observer.init lat lon asl).c_vecO) :
    (0 ≤ (P13Satellite.elaz S V (P13Observer.init lat lon asl)).2.1 ∧
     (P13Satellite.elaz S V (P13Observer.init lat lon asl)).2.1 < 360) ∧
    (-90 ≤ (P13Satellite.elaz S V (P13Observer.init lat lon asl)).1 ∧
     (P13Satellite.elaz S V (P13Observer.init lat lon asl)).1 ≤ 90) ∧
    (0 ≤ (P13Sun.elaz H (P13Observer.init lat lon asl)).2 ∧
     (P13Sun.elaz H (P13Observer.init lat lon asl)).2 < 360) ∧
    (-90 ≤ (P13Sun.elaz H (P13Observer.init lat lon asl)).1 ∧
     (P13Sun.elaz H (P13Observer.init lat lon asl)).1 ≤ 90) := by
  refine ⟨?_, ?_, ?_, ?_⟩
  · simpa only [P13Satellite.elaz] using az_norm_range _ _
  · simpa only [P13Satellite.elaz] using el_degrees_range _
  · simpa only [P13Sun.elaz] using az_norm_range _ _
  · simpa only [P13Sun.elaz] using el_degrees_range _

lemma g_scdRE_pos : (0:ℝ) < g_scdRE := by unfold g_scdRE; norm_num

lemma obs_origin :
    P13Observer.init 0 0 0 =
      ⟨0, 0, 0, (1, 0, 0), (0, 1, 0), (0, 0, 1), (g_scdRE, 0, 0),
       (0, g_scdRE * g_scdW0, 0)⟩ := by
  unfold P13Observer.init radians
  simp only [zero_mul, Real.cos_zero, Real.sin_zero, mul_one, mul_zero, one_mul,
    zero_mul, neg_zero, add_zero, zero_add, zero_div]
  rw [Real.sqrt_mul_self g_scdRE_pos.le]
  rw [mul_div_assoc, div_self g_scdRE_pos.ne', mul_one]

/-- Claim C5 witness: the azimuth range at a concrete observer and satellite
position with nonzero range vector. -/
theorem elaz_output_ranges_witness :
    0 ≤ (P13Satellite.elaz (0, 0, 0) (0, 0, 0) (P13Observer.init 0 0 0)).2.1 ∧
    (P13Satellite.elaz (0, 0, 0) (0, 0, 0) (P13Observer.init 0 0 0)).2.1 < 360 := by
  refine (elaz_output_ranges 0 0 0 (0, 0, 0) (0, 0, 0) (0, 0, 1) ?_ ?_).1
  · rw [obs_origin]
    intro hq
    have h1 : (0:ℝ) = g_scdRE := congrArg Prod.fst hq
    exact absurd h1.symm g_scdRE_pos.ne'
  · rw [obs_origin]
    intro hq
    have h1 : (0:ℝ) * g_scdAU = g_scdRE := congrArg Prod.fst hq
    rw [zero_mul] at h1
    exact absurd h1.symm g_scdRE_pos.ne'

-- ---------------------------------------------------------------------
-- Norm preservation through predict (claim C8)
-- ---------------------------------------------------------------------

lemma rot_norm_poly (cw sw cq sq ci si x y : ℝ)
    (hw : cw ^ 2 + sw ^ 2 = 1) (hq : cq ^ 2 + sq ^ 2 = 1) (hi : ci ^ 2 + si ^ 2 = 1) :
    (x * (cw * cq - sw * ci * sq) + y * (-sw * cq - cw * ci * sq)) ^ 2 +
    (x * (cw * sq + sw * ci * cq) + y * (-sw * sq + cw * ci * cq)) ^ 2 +
    (x * (sw * si) + y * (cw * si)) ^ 2 = x ^ 2 + y ^ 2 := by
  linear_combination
    (x ^ 2 * (cw ^ 2 + sw ^ 2 * ci ^ 2) + y ^ 2 * (sw ^ 2 + cw ^ 2 * ci ^ 2)
      + 2 * x * y * cw * sw * (ci ^ 2 - 1)) * hq
    + (x ^ 2 * sw ^ 2 + y ^ 2 * cw ^ 2 + 2 * x * y * cw * sw) * hi
    + (x ^ 2 + y ^ 2) * hw

lemma zrot_norm_poly (cg sg x y z : ℝ) (hg : cg ^ 2 + sg ^ 2 = 1) :
    (x * cg - y * sg) ^ 2 + (x * sg + y * cg) ^ 2 + z ^ 2 = x ^ 2 + y ^ 2 + z ^ 2 := by
  linear_combination (x ^ 2 + y ^ 2) * hg

lemma plane_norm_poly (A B e c s : ℝ) (hB : B ^ 2 = A ^ 2 * (1 - e ^ 2))
    (hcs : c ^ 2 + s ^ 2 = 1) :
    (A * (c - e)) ^ 2 + (B * s) ^ 2 = (A * (1 - e * c)) ^ 2 := by
  linear_combination s ^ 2 * hB + A ^ 2 * (1 - e ^ 2) * hcs

lemma applyPlane_celestialMat_sumsq (AP RAAN IN : ℝ) (p : ℝ × ℝ) :
    sumsq (applyPlane (celestialMat AP RAAN IN) p) = p.1 ^ 2 + p.2 ^ 2 := by
  obtain ⟨x, y⟩ := p
  simp only [sumsq, applyPlane, celestialMat]
  exact rot_norm_poly _ _ _ _ _ _ _ _ (Real.cos_sq_add_sin_sq AP)
    (Real.cos_sq_add_sin_sq RAAN) (Real.cos_sq_add_sin_sq IN)

lemma geoRotate_sumsq (g : ℝ) (v : Vec3) : sumsq (geoRotate g v) = sumsq v := by
  obtain ⟨x, y, z⟩ := v
  simp only [sumsq, geoRotate]
  exact zrot_norm_poly _ _ _ _ _ (Real.cos_sq_add_sin_sq (-g))

lemma kepler_some_spec (fuel : ℕ) (ec M E0 ea c s dnom : ℝ)
    (h : kepler fuel ec M E0 = some (ea, c, s, dnom)) :
    c ^ 2 + s ^ 2 = 1 ∧ dnom = 1 - ec * c := by
  induction fuel generalizing E0 with
  | zero => simp [kepler] at h
  | succ f ih =>
    rw [kepler] at h
    split_ifs at h with hcond
    · simp only [Option.some_inj, Prod.mk.injEq] at h
      obtain ⟨h1, h2, h3, h4⟩ := h
      rw [← h2, ← h3, ← h4]
      exact ⟨Real.cos_sq_add_sin_sq E0, rfl⟩
    · exact ih _ h

lemma predictFinish_c_vecS (sat : P13Satellite) (dt : P13DateTime) (ea c s dnom : ℝ) :
    (predictFinish sat dt (ea, c, s, dnom)).c_vecS =
      geoRotate (predictGHAA sat dt)
        (applyPlane (celestialMat (predictAP sat dt) (predictRAAN sat dt) sat.cp_dIN)
          (sat.cp_dA_0 * predictKD sat dt * (c - sat.cp_dEC),
           sat.cp_dB_0 * predictKD sat dt * s)) := by
  simp only [predictFinish]

lemma predictFinish_c_vecSAT (sat : P13Satellite) (dt : P13DateTime) (ea c s dnom : ℝ) :
    (predictFinish sat dt (ea, c, s, dnom)).c_vecSAT =
      applyPlane (celestialMat (predictAP sat dt) (predictRAAN sat dt) sat.cp_dIN)
        (sat.cp_dA_0 * predictKD sat dt * (c - sat.cp_dEC),
         sat.cp_dB_0 * predictKD sat dt * s) := by
  simp only [predictFinish]

lemma predictFinish_cp_dRS (sat : P13Satellite) (dt : P13DateTime) (ea c s dnom : ℝ) :
    (predictFinish sat dt (ea, c, s, dnom)).cp_dRS =
      sat.cp_dA_0 * predictKD sat dt * dnom := by
  simp only [predictFinish]

lemma predict_some_spec_general (sat : P13Satellite) (dt : P13DateTime) (fuel : ℕ)
    (st : PredictState)
    (he0 : 0 ≤ sat.cp_dEC) (he1 : sat.cp_dEC < 1)
    (hA0 : 0 < sat.cp_dA_0)
    (hB2 : sat.cp_dB_0 ^ 2 = sat.cp_dA_0 ^ 2 * (1 - sat.cp_dEC ^ 2))
    (h : sat.predict dt fuel = some st) :
    norm3 st.c_vecS = |st.cp_dRS| ∧
    norm3 st.c_vecSAT = |st.cp_dRS| ∧
    (0 ≤ predictKD sat dt → norm3 st.c_vecS = st.cp_dRS) ∧
    (-1 ≤ st.c_vecS.2.2 / st.cp_dRS ∧ st.c_vecS.2.2 / st.cp_dRS ≤ 1) := by
  unfold P13Satellite.predict at h
  cases hk : kepler fuel sat.cp_dEC (predictMred sat dt) (predictMred sat dt) with
  | none => rw [hk] at h; exact absurd h (by simp)
  | some q =>
    obtain ⟨ea, c, s, dnom⟩ := q
    obtain ⟨hcs, hdnom⟩ := kepler_some_spec fuel _ _ _ _ _ _ _ hk
    rw [hk] at h
    simp only [Option.map_some', Option.some_inj] at h
    have hS := predictFinish_c_vecS sat dt ea c s dnom
    have hSAT := predictFinish_c_vecSAT sat dt ea c s dnom
    have hRS := predictFinish_cp_dRS sat dt ea c s dnom
    rw [h] at hS hSAT hRS
    have hc2 : c ^ 2 ≤ 1 := by nlinarith [sq_nonneg s]
    have hcle : c ≤ 1 := by nlinarith [sq_nonneg (c - 1)]
    have hdpos : 0 < dnom := by
      rw [hdnom]
      have h5 : sat.cp_dEC * c ≤ sat.cp_dEC := by nlinarith
      linarith
    have hB2K : (sat.cp_dB_0 * predictKD sat dt) ^ 2 =
        (sat.cp_dA_0 * predictKD sat dt) ^ 2 * (1 - sat.cp_dEC ^ 2) := by
      linear_combination (predictKD sat dt) ^ 2 * hB2
    have hsumS : sumsq st.c_vecS = (sat.cp_dA_0 * predictKD sat dt * dnom) ^ 2 := by
      rw [hS, geoRotate_sumsq, applyPlane_celestialMat_sumsq]
      dsimp only
      rw [hdnom]
      exact plane_norm_poly _ _ _ c s hB2K hcs
    have hsumSAT : sumsq st.c_vecSAT = (sat.cp_dA_0 * predictKD sat dt * dnom) ^ 2 := by
      rw [hSAT, applyPlane_celestialMat_sumsq]
      dsimp only
      rw [hdnom]
      exact plane_norm_poly _ _ _ c s hB2K hcs
    have hnorm : norm3 st.c_vecS = |sat.cp_dA_0 * predictKD sat dt * dnom| := by
      unfold norm3
      rw [hsumS, Real.sqrt_sq_eq_abs]
    have hnormSAT : norm3 st.c_vecSAT = |sat.cp_dA_0 * predictKD sat dt * dnom| := by
      unfold norm3
      rw [hsumSAT, Real.sqrt_sq_eq_abs]
    have hz2 : st.c_vecS.2.2 ^ 2 ≤ (sat.cp_dA_0 * predictKD sat dt * dnom) ^ 2 := by
      rw [← hsumS]
      unfold sumsq
      nlinarith [sq_nonneg st.c_vecS.1, sq_nonneg st.c_vecS.2.1]
    have habs : |st.c_vecS.2.2| ≤ |sat.cp_dA_0 * predictKD sat dt * dnom| := by
      rw [← Real.sqrt_sq_eq_abs, ← Real.sqrt_sq_eq_abs]
      exact Real.sqrt_le_sqrt hz2
    refine ⟨by rw [hnorm, hRS], by rw [hnormSAT, hRS], ?_, ?_⟩
    · intro hKD
      rw [hnorm, hRS, abs_of_nonneg (mul_nonneg (mul_nonneg hA0.le hKD) hdpos.le)]
    · rcases eq_or_ne (sat.cp_dA_0 * predictKD sat dt * dnom) 0 with hz | hnz
      · have hz0 : st.c_vecS.2.2 = 0 := by
          rw [hz, abs_zero] at habs
          exact abs_eq_zero.mp (le_antisymm habs (abs_nonneg _))
        rw [hRS, hz, hz0]
        norm_num
      · have hd1 : |st.c_vecS.2.2 / (sat.cp_dA_0 * predictKD sat dt * dnom)| ≤ 1 := by
          rw [abs_div]
          rw [div_le_one (abs_pos.mpr hnz)]
          exact habs
        rw [hRS]
        exact abs_le.mp hd1

lemma tle_fields_spec (YEf : ℤ) (TEf M2f INf RAf ECf WPf MAf MMf RVf : ℝ)
    (hE0 : 0 ≤ ECf) (hE1 : ECf < 1e7) (hMM : 0 < MMf) :
    0 ≤ (P13Satellite.tle YEf TEf M2f INf RAf ECf WPf MAf MMf RVf).cp_dEC ∧
    (P13Satellite.tle YEf TEf M2f INf RAf ECf WPf MAf MMf RVf).cp_dEC < 1 ∧
    0 < (P13Satellite.tle YEf TEf M2f INf RAf ECf WPf MAf MMf RVf).cp_dA_0 ∧
    (P13Satellite.tle YEf TEf M2f INf RAf ECf WPf MAf MMf RVf).cp_dB_0 ^ 2 =
      (P13Satellite.tle YEf TEf M2f INf RAf ECf WPf MAf MMf RVf).cp_dA_0 ^ 2 *
        (1 - (P13Satellite.tle YEf TEf M2f INf RAf ECf WPf MAf MMf RVf).cp_dEC ^ 2) := by
  have hEC : (P13Satellite.tle YEf TEf M2f INf RAf ECf WPf MAf MMf RVf).cp_dEC
      = ECf / 1e7 := by
    simp [P13Satellite.tle]
  have hA0 : (P13Satellite.tle YEf TEf M2f INf RAf ECf WPf MAf MMf RVf).cp_dA_0
      = (g_scdGM / (2 * π * MMf / 86400 * (2 * π * MMf / 86400))) ^ ((1:ℝ) / 3) := by
    simp [P13Satellite.tle]
  have hB0 : (P13Satellite.tle YEf TEf M2f INf RAf ECf WPf MAf MMf RVf).cp_dB_0
      = (P13Satellite.tle YEf TEf M2f INf RAf ECf WPf MAf MMf RVf).cp_dA_0 *
        Real.sqrt (1 - ECf / 1e7 * (ECf / 1e7)) := by
    simp [P13Satellite.tle]
  have h1 : (0:ℝ) ≤ ECf / 1e7 := div_nonneg hE0 (by norm_num)
  have h2 : ECf / 1e7 < 1 := by
    rw [div_lt_one (by norm_num)]
    exact hE1
  refine ⟨?_, ?_, ?_, ?_⟩
  · rw [hEC]
    exact h1
  · rw [hEC]
    exact h2
  · rw [hA0]
    apply Real.rpow_pos_of_pos
    apply div_pos
    · unfold g_scdGM
      norm_num
    · have hN : (0:ℝ) < 2 * π * MMf / 86400 :=
        div_pos (mul_pos (mul_pos (by norm_num) Real.pi_pos) hMM) (by norm_num)
      exact mul_pos hN hN
  · have hnn : (0:ℝ) ≤ 1 - ECf / 1e7 * (ECf / 1e7) := by nlinarith
    rw [hB0, hEC, mul_pow, Real.sq_sqrt hnn]
    ring

/-- Claim C8 amended: after every successful propagate call on a tle-derived
element set with eccentricity in [0,1) and positive mean motion, the norm of
both the geocentric and the celestial position vector equals the absolute
value of the cached radius cp_dRS = a*KD*(1 - e*cos E); it equals cp_dRS
itself whenever the drag factor KD = 1 + 4*DT is nonnegative (KD < 0 flips
the sign of cp_dRS), and the argument S[2]/cp_dRS that latlon passes to asin
always lies in [-1, 1]. -/
theorem predict_norm_equals_radius (YEf : ℤ) (TEf M2f INf RAf ECf WPf MAf MMf RVf : ℝ)
    (hE0 : 0 ≤ ECf) (hE1 : ECf < 1e7) (hMM : 0 < MMf) (dt : P13DateTime) (fuel : ℕ) :
    ((P13Satellite.tle YEf TEf M2f INf RAf ECf WPf MAf MMf RVf).predict dt fuel).elim True
      (fun st =>
        norm3 st.c_vecS = |st.cp_dRS| ∧
        norm3 st.c_vecSAT = |st.cp_dRS| ∧
        (0 ≤ predictKD (P13Satellite.tle YEf TEf M2f INf RAf ECf WPf MAf MMf RVf) dt →
          norm3 st.c_vecS = st.cp_dRS) ∧
        (-1 ≤ st.c_vecS.2.2 / st.cp_dRS ∧ st.c_vecS.2.2 / st.cp_dRS ≤ 1)) := by
  obtain ⟨hf1, hf2, hf3, hf4⟩ :=
    tle_fields_spec YEf TEf M2f INf RAf ECf WPf MAf MMf RVf hE0 hE1 hMM
  cases hp : (P13Satellite.tle YEf TEf M2f INf RAf ECf WPf MAf MMf RVf).predict dt fuel with
  | none => simp
  | some st =>
    simp only [Option.elim]
    exact predict_some_spec_general _ dt fuel st hf1 hf2 hf3 hf4 hp

/-- Claim C8 witness: the amended statement instantiated at a concrete
element set and timestamp. -/
theorem predict_norm_equals_radius_witness :
    ((P13Satellite.tle 20 50 0 0 0 0 0 0 1 0).predict ⟨fnday 2020 1 0 + 50, 0⟩ 1).elim True
      (fun st =>
        norm3 st.c_vecS = |st.cp_dRS| ∧
        norm3 st.c_vecSAT = |st.cp_dRS| ∧
        (0 ≤ predictKD (P13Satellite.tle 20 50 0 0 0 0 0 0 1 0) ⟨fnday 2020 1 0 + 50, 0⟩ →
          norm3 st.c_vecS = st.cp_dRS) ∧
        (-1 ≤ st.c_vecS.2.2 / st.cp_dRS ∧ st.c_vecS.2.2 / st.cp_dRS ≤ 1)) :=
  predict_norm_equals_radius 20 50 0 0 0 0 0 0 1 0 (by norm_num) (by norm_num) (by norm_num)
    ⟨fnday 2020 1 0 + 50, 0⟩ 1

/-- Claim C8 counterexample: an element set with a large decay field makes the
drag factor KD equal -1 one day after epoch (eccentricity 0, so the Kepler
loop exits immediately with E = pi); the cached cp_dRS = a*KD*(1 - e*cos E)
is then the negative of the position norm, so the norm of the computed
position vector does not equal cp_dRS. -/
theorem predict_norm_counterexample :
    Option.map (fun st => norm3 st.c_vecS)
      ((P13Satellite.tle 20 50 (3/2) 0 0 0 0 0 1 0).predict ⟨fnday 2020 1 0 + 51, 0⟩ 1) ≠
    Option.map (fun st => st.cp_dRS)
      ((P13Satellite.tle 20 50 (3/2) 0 0 0 0 0 1 0).predict ⟨fnday 2020 1 0 + 51, 0⟩ 1) := by
  set satC := P13Satellite.tle 20 50 (3/2) 0 0 0 0 0 1 0 with hsat
  set dtC : P13DateTime := ⟨fnday 2020 1 0 + 51, 0⟩ with hdt
  have hpi := Real.pi_pos
  have h50 : rtrunc (50:ℝ) = 50 := by
    rw [rtrunc_of_nonneg (by norm_num : (0:ℝ) ≤ 50)]
    norm_num
  have hEC : satC.cp_dEC = 0 := by
    rw [hsat]
    simp [P13Satellite.tle]
  have hDC : satC.cp_dDC = -1 := by
    rw [hsat]
    simp only [P13Satellite.tle]
    rw [div_eq_iff (by positivity : (3:ℝ) * (2 * π * 1) ≠ 0)]
    ring
  have hDE : satC.cp_lDE = fnday 2020 1 0 + 50 := by
    rw [hsat]
    simp [P13Satellite.tle, h50]
  have hTE : satC.cp_dTE = 0 := by
    rw [hsat]
    simp [P13Satellite.tle, h50]
  have hMM : satC.cp_dMM = 2 * π := by
    rw [hsat]
    simp [P13Satellite.tle]
  have hMA : satC.cp_dMA = 0 := by
    rw [hsat]
    simp [P13Satellite.tle, radians]
  have hT : predictT satC dtC = 1 := by
    unfold predictT
    rw [hdt]
    dsimp only
    rw [hDE, hTE]
    push_cast
    ring
  have hMraw : predictMraw satC dtC = 5 * π := by
    unfold predictMraw predictDT
    rw [hT, hMA, hMM, hDC]
    ring
  have hDR : predictDR satC dtC = 2 := by
    unfold predictDR
    rw [hMraw]
    have hq : 5 * π / (2 * π) = (5/2 : ℝ) := by
      rw [div_eq_iff (by positivity : (2:ℝ) * π ≠ 0)]
      ring
    rw [hq, rtrunc_of_nonneg (by norm_num : (0:ℝ) ≤ 5/2)]
    norm_num
  have hMred : predictMred satC dtC = π := by
    unfold predictMred
    rw [hMraw, hDR]
    push_cast
    ring
  have hkep : kepler 1 satC.cp_dEC (predictMred satC dtC) (predictMred satC dtC)
      = some (π, -1, 0, 1) := by
    rw [hEC, hMred]
    have hk := kepler_ecc_zero π 0
    rw [Real.cos_pi, Real.sin_pi] at hk
    exact hk
  have hpred : satC.predict dtC 1 = some (predictFinish satC dtC (π, -1, 0, 1)) := by
    unfold P13Satellite.predict
    rw [hkep]
    rfl
  have hKD : predictKD satC dtC = -1 := by
    unfold predictKD predictDT
    rw [hDC, hT]
    norm_num
  have hRS : (predictFinish satC dtC (π, -1, 0, 1)).cp_dRS = -satC.cp_dA_0 := by
    rw [predictFinish_cp_dRS, hKD]
    ring
  obtain ⟨hf1, hf2, hf3, hf4⟩ := tle_fields_spec 20 50 (3/2) 0 0 0 0 0 1 0
    (by norm_num) (by norm_num) (by norm_num)
  rw [← hsat] at hf1 hf2 hf3 hf4
  have hnorm := (predict_some_spec_general satC dtC 1 _ hf1 hf2 hf3 hf4 hpred).1
  rw [hpred]
  simp only [Option.map_some', ne_eq, Option.some_inj]
  rw [hnorm, hRS, abs_neg, abs_of_pos hf3]
  intro hcontra
  linarith
